import Mathlib

/-!
Shallow embedding of the beaker `ApplicationClient` (client-side orchestration
layer for stateful smart-contract applications), checked against the natural
language specification.  The client implementation file is not part of the
source excerpt (only its test suite is), so the operational definitions below
are modelled from the specification, constrained by the behaviour the test
suite asserts.
-/

namespace Beaker

/-- Modelled from the spec: network addresses.  Address derivation is an
opaque deterministic injective function per source of derivation (single
account key, multi-signature description, delegated-logic program bytes,
application id), so addresses are modelled as a free inductive over those
derivation sources. -/
inductive Addr where
  | acct (pk : Nat)
  | msigAddr (version : Nat) (threshold : Nat) (addrs : List Addr)
  | lsigAddr (program : List Nat)
  | appAddr (id : Nat)

/-- Modelled from the spec: the signer capability, a closed tagged union with
exactly the three variants of section 3: single-account, multi-signature and
delegated-logic. -/
inductive Signer where
  | account (privateKey : Nat)
  | multisig (version : Nat) (threshold : Nat) (addrs : List Addr) (signingKey : Nat)
  | logicSig (program : List Nat)

/-- Modelled from the spec: pure, deterministic address derivation per signer
variant (section 3): the account address for a single-account signer, the
address derived from (version, threshold, ordered constituent addresses) for a
multi-signature signer, the address derived from the program bytes for a
delegated-logic signer. -/
def signerAddress : Signer → Addr
  | .account pk => .acct pk
  | .multisig v t as _ => .msigAddr v t as
  | .logicSig p => .lsigAddr p

/-- Modelled from the spec: suggested network fee and round parameters. -/
structure SuggestedParams where
  fee : Nat
  flat_fee : Bool

/-- Modelled from the spec: the application description, holding the declared
target bytecode version, the approval and clear-state logic sources, and the
fixed global and local state schema counts. -/
structure AppDescription where
  version : Nat
  approvalSrc : List Nat
  clearSrc : List Nat
  globalNumUints : Nat
  globalNumByteSlices : Nat
  localNumUints : Nat
  localNumByteSlices : Nat

/-- Modelled from the spec: the Configuration Snapshot held by an
`ApplicationClient`: opaque transport handle, application description,
optional signer, optional sender, application id (zero meaning not yet
deployed), optional application address and optional suggested params. -/
structure ApplicationClient where
  client : Nat
  app : AppDescription
  signer : Option Signer
  sender : Option Addr
  app_id : Nat
  app_addr : Option Addr
  suggested_params : Option SuggestedParams

/-- Modelled from the spec: error taxonomy (section 7); only the
configuration error is reachable from the operations embedded here. -/
inductive ClientError where
  | configurationError

namespace ApplicationClient

/-- Modelled from the spec: client construction
`(transport, application_description, signer, sender, app_id, suggested_params)`;
the application address is present exactly when the application id is
non-zero, never set independently at construction. -/
def construct (client : Nat) (app : AppDescription) (signer : Option Signer)
    (sender : Option Addr) (app_id : Nat) (suggested_params : Option SuggestedParams) :
    ApplicationClient where
  client := client
  app := app
  signer := signer
  sender := sender
  app_id := app_id
  app_addr := if app_id = 0 then none else some (Addr.appAddr app_id)
  suggested_params := suggested_params

/-- Modelled from the spec (section 4.1): `get_signer(explicit)` returns
`explicit` if non-null, else the snapshot's signer, else fails with a
configuration error. -/
def get_signer (a : ApplicationClient) (explicit : Option Signer) :
    Except ClientError Signer :=
  match explicit with
  | some s => .ok s
  | none =>
    match a.signer with
    | some s => .ok s
    | none => .error .configurationError

/-- Modelled from the spec (section 4.1): `get_sender(explicit_sender,
explicit_signer)` returns `explicit_sender` if non-null, else the snapshot's
sender if non-null, else the address derived from
`get_signer(explicit_signer)`; fails with a configuration error when no
address can be derived. -/
def get_sender (a : ApplicationClient) (explicit_sender : Option Addr)
    (explicit_signer : Option Signer) : Except ClientError Addr :=
  match explicit_sender with
  | some x => .ok x
  | none =>
    match a.sender with
    | some x => .ok x
    | none => (a.get_signer explicit_signer).map signerAddress

/-- Modelled from the spec (section 4.2): the accepted override keys of
`prepare`: signer, sender, application id and suggested params; an absent
field means the key was not passed.  Unknown keys are not representable. -/
structure Overrides where
  signer : Option Signer
  sender : Option Addr
  app_id : Option Nat
  suggested_params : Option SuggestedParams

/-- Modelled from the spec (section 4.2) and the test suite: `prepare`
returns a new snapshot copying the source and replacing the overridden
fields; per the tests (test_app_prepare), when no sender is given and the
source has none, the sender of the derived snapshot is the address derived
from the resolved signer when one exists.  Overriding the application id
does not touch the application address. -/
def prepare (o : Overrides) (a : ApplicationClient) : ApplicationClient :=
  let signer' :=
    match o.signer with
    | some s => some s
    | none => a.signer
  let sender' :=
    match o.sender with
    | some x => some x
    | none =>
      match a.sender with
      | some x => some x
      | none => Option.map signerAddress signer'
  { a with
    signer := signer'
    sender := sender'
    app_id :=
      match o.app_id with
      | some n => n
      | none => a.app_id
    suggested_params :=
      match o.suggested_params with
      | some p => some p
      | none => a.suggested_params }

end ApplicationClient

/-- Modelled from the spec: the on-completion intent codes of a transaction
(glossary / section 4.4). -/
inductive OnComplete where
  | noOp
  | optIn
  | closeOut
  | clearState
  | updateApplication
  | deleteApplication
deriving DecidableEq

/-- Modelled from the spec: the application transaction shape the builder
produces, with the fields the test suite observes (wire names: snd = sender,
apid = application id, apan = on-completion intent, fee, apep = extra pages,
apgs / apls = global / local schema as (uint count, byte-slice count) pairs,
apap / apsu = approval / clear programs). -/
structure Txn where
  snd : Addr
  apid : Nat
  apan : OnComplete
  fee : Nat
  apep : Nat
  apgs : Option (Nat × Nat)
  apls : Option (Nat × Nat)
  apap : List Nat
  apsu : List Nat

/-- Modelled from the spec: the ledger node transport collaborator, reduced
to what the claims observe: the suggested params it would return when freshly
fetched, the last application id it allocated, and the list of submitted
transactions (a transaction id is the index of the transaction in it). -/
structure Chain where
  params : SuggestedParams
  lastAppId : Nat
  txns : List Txn

/-- Modelled from the spec: `get_application_address`, a deterministic pure
function of the application id (section 6). -/
def get_application_address (appId : Nat) : Addr :=
  Addr.appAddr appId

/-- Modelled from the spec: the external compiler collaborator, an opaque
`compile(source_description, version) -> bytecode` call. -/
def Compiler : Type :=
  List Nat → Nat → List Nat

/-- Modelled from the spec: the contract the external compiler is assumed to
satisfy (section 4.3): the returned bytecode is non-empty and its first byte
encodes the bytecode version used. -/
def CompilerContract (compile : Compiler) : Prop :=
  ∀ src version, compile src version ≠ [] ∧ (compile src version).head? = some version

namespace ApplicationClient

/-- Modelled from the spec (section 4.3): `compile_approval()` invokes the
external compiler with the application's approval logic source and the
snapshot's declared bytecode target version. -/
def compile_approval (compile : Compiler) (a : ApplicationClient) : List Nat :=
  compile a.app.approvalSrc a.app.version

/-- Modelled from the spec (section 4.3): `compile_clear()` invokes the
external compiler with the application's clear-state logic source and the
snapshot's declared bytecode target version. -/
def compile_clear (compile : Compiler) (a : ApplicationClient) : List Nat :=
  compile a.app.clearSrc a.app.version

/-- Modelled from the spec (section 4.4): resolution of suggested network
parameters: explicit argument, else snapshot value, else freshly fetched
from the transport. -/
def resolve_params (explicit : Option SuggestedParams) (a : ApplicationClient)
    (ch : Chain) : SuggestedParams :=
  match explicit with
  | some p => p
  | none =>
    match a.suggested_params with
    | some p => p
    | none => ch.params

/-- Modelled from the spec: the result of a successful `create()`: the
allocated application id and address, the transaction id, the updated
invoking client and the updated transport state. -/
structure CreateResult where
  appId : Nat
  appAddr : Addr
  txId : Nat
  snapshot : ApplicationClient
  chain : Chain

/-- Modelled from the spec (section 4.4, Create): resolves signer and sender,
resolves suggested params, compiles approval and clear bytecode, builds the
creation transaction carrying the application's fixed global and local schema
and the optional extra storage pages, submits it, and returns the allocated
application id, the address deterministically derived from it, and the
transaction id; the invoking client's own `app_id` and `app_addr` are set to
the returned values. -/
def create (compile : Compiler) (extra_pages : Nat)
    (suggested_params : Option SuggestedParams) (a : ApplicationClient)
    (ch : Chain) : Except ClientError CreateResult :=
  match a.get_signer none with
  | .error e => .error e
  | .ok _ =>
    match a.get_sender none none with
    | .error e => .error e
    | .ok snd =>
      let p := resolve_params suggested_params a ch
      let txn : Txn :=
        { snd := snd
          apid := 0
          apan := .noOp
          fee := p.fee
          apep := extra_pages
          apgs := some (a.app.globalNumUints, a.app.globalNumByteSlices)
          apls := some (a.app.localNumUints, a.app.localNumByteSlices)
          apap := a.compile_approval compile
          apsu := a.compile_clear compile }
      let appId := ch.lastAppId + 1
      let appAddr := get_application_address appId
      .ok
        { appId := appId
          appAddr := appAddr
          txId := ch.txns.length
          snapshot := { a with app_id := appId, app_addr := some appAddr }
          chain := { params := ch.params, lastAppId := appId, txns := ch.txns ++ [txn] } }

/-- Modelled from the spec: the result of a non-create lifecycle operation:
the transaction id and the updated transport state. -/
structure CallResult where
  txId : Nat
  chain : Chain

/-- Modelled from the spec (section 4.4): the shared shape of the non-create
lifecycle operations: resolve signer and sender, resolve suggested params,
build the transaction against the client's application id with the
operation's on-completion intent, and submit it. -/
def lifecycle (oc : OnComplete) (approval clear : List Nat)
    (suggested_params : Option SuggestedParams) (a : ApplicationClient)
    (ch : Chain) : Except ClientError CallResult :=
  match a.get_signer none with
  | .error e => .error e
  | .ok _ =>
    match a.get_sender none none with
    | .error e => .error e
    | .ok snd =>
      let p := resolve_params suggested_params a ch
      let txn : Txn :=
        { snd := snd
          apid := a.app_id
          apan := oc
          fee := p.fee
          apep := 0
          apgs := none
          apls := none
          apap := approval
          apsu := clear }
      .ok
        { txId := ch.txns.length
          chain := { ch with txns := ch.txns ++ [txn] } }

/-- Modelled from the spec (section 4.4, Update): submits a transaction with
the UpdateApplication on-completion intent carrying freshly compiled
approval and clear bytecode. -/
def update (compile : Compiler) (suggested_params : Option SuggestedParams)
    (a : ApplicationClient) (ch : Chain) : Except ClientError CallResult :=
  lifecycle .updateApplication (a.compile_approval compile) (a.compile_clear compile)
    suggested_params a ch

/-- Modelled from the spec (section 4.4, Delete): submits a transaction with
the DeleteApplication on-completion intent. -/
def delete (suggested_params : Option SuggestedParams) (a : ApplicationClient)
    (ch : Chain) : Except ClientError CallResult :=
  lifecycle .deleteApplication [] [] suggested_params a ch

/-- Modelled from the spec (section 4.4, OptIn): submits a transaction with
the OptIn on-completion intent. -/
def opt_in (suggested_params : Option SuggestedParams) (a : ApplicationClient)
    (ch : Chain) : Except ClientError CallResult :=
  lifecycle .optIn [] [] suggested_params a ch

/-- Modelled from the spec (section 4.4, CloseOut): submits a transaction
with the CloseOut on-completion intent. -/
def close_out (suggested_params : Option SuggestedParams) (a : ApplicationClient)
    (ch : Chain) : Except ClientError CallResult :=
  lifecycle .closeOut [] [] suggested_params a ch

/-- Modelled from the spec (section 4.4, ClearState): submits a transaction
with the ClearState on-completion intent. -/
def clear_state (suggested_params : Option SuggestedParams) (a : ApplicationClient)
    (ch : Chain) : Except ClientError CallResult :=
  lifecycle .clearState [] [] suggested_params a ch

end ApplicationClient

/-- Modelled from the spec: a store of coexisting client snapshots, used to
state frame properties (deriving or mutating one snapshot must not be
observable through another); indices play the role of object identity. -/
abbrev Store : Type :=
  List ApplicationClient

/-- Modelled from the spec (section 4.2): calling `prepare` on the snapshot
at index `i` of the store adds the derived snapshot as a new, independent
value; no existing snapshot is touched. -/
def prepareOp (i : Nat) (o : ApplicationClient.Overrides) (st : Store) : Store :=
  match st[i]? with
  | some a => st ++ [a.prepare o]
  | none => st

/-- Modelled from the spec (section 4.4): calling `create` on the snapshot at
index `i` of the store replaces that snapshot with the updated invoking
client (its `app_id` and `app_addr` now set) and advances the transport
state; every other snapshot in the store is untouched. -/
def createOp (compile : Compiler) (i : Nat) (extra_pages : Nat)
    (suggested_params : Option SuggestedParams) (st : Store) (ch : Chain) :
    Store × Chain :=
  match st[i]? with
  | some a =>
    match a.create compile extra_pages suggested_params ch with
    | .ok r => (st.set i r.snapshot, r.chain)
    | .error _ => (st, ch)
  | none => (st, ch)

/-- Modelled from the spec: the snapshots reachable through the client's
public surface: construction, `prepare` with any accepted overrides, and a
successful `create`. -/
inductive Reachable : ApplicationClient → Prop where
  | construct (c : Nat) (app : AppDescription) (sg : Option Signer)
      (sd : Option Addr) (i : Nat) (sp : Option SuggestedParams) :
      Reachable (ApplicationClient.construct c app sg sd i sp)
  | prep (o : ApplicationClient.Overrides) (a : ApplicationClient) :
      Reachable a → Reachable (a.prepare o)
  | created (compile : Compiler) (ep : Nat) (sp : Option SuggestedParams)
      (a : ApplicationClient) (ch : Chain) (r : ApplicationClient.CreateResult) :
      Reachable a → a.create compile ep sp ch = .ok r → Reachable r.snapshot

/-- Modelled from the spec: the snapshots reachable without ever using the
application id override of `prepare` (the spec's deliberate low-level escape
hatch of section 4.2). -/
inductive ReachableNoIdOverride : ApplicationClient → Prop where
  | construct (c : Nat) (app : AppDescription) (sg : Option Signer)
      (sd : Option Addr) (i : Nat) (sp : Option SuggestedParams) :
      ReachableNoIdOverride (ApplicationClient.construct c app sg sd i sp)
  | prep (o : ApplicationClient.Overrides) (a : ApplicationClient) :
      o.app_id = none → ReachableNoIdOverride a → ReachableNoIdOverride (a.prepare o)
  | created (compile : Compiler) (ep : Nat) (sp : Option SuggestedParams)
      (a : ApplicationClient) (ch : Chain) (r : ApplicationClient.CreateResult) :
      ReachableNoIdOverride a → a.create compile ep sp ch = .ok r →
      ReachableNoIdOverride r.snapshot

/-- Modelled from the spec: a sample application description used by the
concrete instances in the theorems below (one global and one local uint,
one global and one local byte slice, as in the test application). -/
def sampleApp : AppDescription where
  version := 6
  approvalSrc := [10, 11]
  clearSrc := [20]
  globalNumUints := 1
  globalNumByteSlices := 1
  localNumUints := 1
  localNumByteSlices := 1

/-- Modelled from the spec: a sample transport state. -/
def sampleChain : Chain where
  params := { fee := 1000, flat_fee := false }
  lastAppId := 0
  txns := []

/-- Modelled from the spec: a sample compiler satisfying the compiler
contract: it prefixes the source with the requested version byte. -/
def sampleCompiler : Compiler :=
  fun src version => version :: src

open ApplicationClient in
/-- C1, counterexample: the claim that `a.prepare(**o)` changes no field
absent from `o` fails when the overrides carry a signer, no sender is given
and the source snapshot has no sender: the derived snapshot's sender becomes
the overriding signer's address, while the source's sender was none (the
behaviour `test_app_prepare` asserts for the multisig and logic-sig cases). -/
theorem prepare_changes_absent_sender_field :
    (Overrides.mk (some (Signer.account 2)) none none none).sender = none ∧
    ((ApplicationClient.construct 0 sampleApp (some (Signer.account 1)) none 0 none).prepare
        (Overrides.mk (some (Signer.account 2)) none none none)).sender ≠
      (ApplicationClient.construct 0 sampleApp (some (Signer.account 1)) none 0 none).sender :=
  ⟨rfl, fun h => Option.noConfusion h⟩

open ApplicationClient in
/-- C1, amended: `a.prepare(**o)` copies the transport handle, the
application description and the application address unchanged; signer,
application id and suggested params take `o`'s value when present and `a`'s
otherwise; the sender takes `o`'s value when present, else `a`'s when
present, else the address derived from the resolved signer when one exists
(none otherwise). -/
theorem prepare_fields (o : Overrides) (a : ApplicationClient) :
    (a.prepare o).client = a.client ∧
    (a.prepare o).app = a.app ∧
    (a.prepare o).app_addr = a.app_addr ∧
    (a.prepare o).signer = o.signer.or a.signer ∧
    (a.prepare o).app_id = o.app_id.getD a.app_id ∧
    (a.prepare o).suggested_params = o.suggested_params.or a.suggested_params ∧
    (a.prepare o).sender =
      (o.sender.or a.sender).or (Option.map signerAddress (o.signer.or a.signer)) := by
  unfold ApplicationClient.prepare
  cases o.sender <;> cases a.sender <;> cases o.signer <;>
    cases o.app_id <;> cases o.suggested_params <;>
    simp [Option.or, Option.getD]

open ApplicationClient in
/-- C2: `get_signer` returns the explicit signer when one is given and the
snapshot's signer otherwise; `get_sender` returns the explicit sender when
given, else the snapshot's sender when present, else the address derived
from `get_signer` applied to the explicit signer. -/
theorem get_signer_get_sender_precedence (a : ApplicationClient)
    (eSigner : Option Signer) (s : Signer) (eSender : Option Addr) (x : Addr) :
    (a.get_signer eSigner = .ok s ↔
      (eSigner = some s ∨ (eSigner = none ∧ a.signer = some s))) ∧
    (a.get_sender eSender eSigner = .ok x ↔
      (eSender = some x ∨
       (eSender = none ∧ a.sender = some x) ∨
       (eSender = none ∧ a.sender = none ∧
        ∃ sg, a.get_signer eSigner = .ok sg ∧ x = signerAddress sg))) := by
  cases eSigner <;> cases eSender <;> cases hg : a.signer <;> cases hd : a.sender <;>
    simp [ApplicationClient.get_signer, ApplicationClient.get_sender, Except.map, hg, hd, eq_comm]

open ApplicationClient in
/-- C7: with no explicit argument, `get_signer` fails with a configuration
error exactly when the snapshot has no signer, and `get_sender` fails with a
configuration error exactly when the snapshot has neither signer nor
sender. -/
theorem resolution_configuration_errors (a : ApplicationClient) :
    (a.get_signer none = .error .configurationError ↔ a.signer = none) ∧
    (a.get_sender none none = .error .configurationError ↔
      (a.signer = none ∧ a.sender = none)) := by
  cases hg : a.signer <;> cases hd : a.sender <;>
    simp [ApplicationClient.get_signer, ApplicationClient.get_sender, Except.map, hg, hd]

open ApplicationClient in
/-- C10: on a snapshot whose sender is none, `prepare` with a signer
override sets the derived snapshot's sender to the address derived from that
signer (the multisig-derived address for a multi-signature signer, the
program-derived address for a delegated-logic signer), even though sender is
not among the overrides; in contrast, construction with a signer and no
sender leaves the sender none. -/
theorem prepare_derives_sender_from_signer (a : ApplicationClient) (s : Signer)
    (h : a.sender = none) :
    (a.prepare (Overrides.mk (some s) none none none)).sender =
      some (signerAddress s) ∧
    (∀ v t as k, signerAddress (Signer.multisig v t as k) = Addr.msigAddr v t as) ∧
    (∀ p, signerAddress (Signer.logicSig p) = Addr.lsigAddr p) ∧
    (∀ c app i sp, (ApplicationClient.construct c app (some s) none i sp).sender = none) := by
  refine ⟨?_, fun v t as k => rfl, fun p => rfl, fun c app i sp => rfl⟩
  simp [ApplicationClient.prepare, h]

open ApplicationClient in
/-- C10, witness: a multisig signer override on a sender-less snapshot yields
the multisig-derived address as the derived snapshot's sender. -/
theorem prepare_derives_sender_from_signer_witness :
    ((ApplicationClient.construct 0 sampleApp none none 0 none).prepare
        (Overrides.mk (some (Signer.multisig 1 3 [Addr.acct 9] 7)) none none none)).sender =
      some (Addr.msigAddr 1 3 [Addr.acct 9]) :=
  (prepare_derives_sender_from_signer
    (ApplicationClient.construct 0 sampleApp none none 0 none)
    (Signer.multisig 1 3 [Addr.acct 9] 7) rfl).1

open ApplicationClient in
/-- C3: deriving a snapshot with `prepare` only appends a new value to the
store of coexisting snapshots; every snapshot that existed before the call,
the source included, is byte-for-byte unchanged. -/
theorem prepare_does_not_mutate (st : Store) (i : Nat) (o : Overrides) :
    (prepareOp i o st).take st.length = st := by
  unfold prepareOp
  cases h : st[i]? <;> simp

/-- Modelled from the spec: a sample client with a known signer, no sender,
not yet deployed; used by the concrete instances in the theorems below. -/
def sampleUndeployed : ApplicationClient :=
  ApplicationClient.construct 0 sampleApp (some (Signer.account 5)) none 0 none

/-- Modelled from the spec: a sample client with a known signer and a
deployed application id; used by the concrete instances below. -/
def sampleDeployed : ApplicationClient :=
  ApplicationClient.construct 0 sampleApp (some (Signer.account 5)) none 1 none

open ApplicationClient in
/-- Helper: the common success shape of the non-create lifecycle operations
when signer and sender resolve. -/
theorem lifecycle_ok (oc : OnComplete) (ap cl : List Nat)
    (sp : Option SuggestedParams) (a : ApplicationClient) (ch : Chain)
    (sg : Signer) (snd : Addr)
    (hsg : a.get_signer none = .ok sg)
    (hsnd : a.get_sender none none = .ok snd) :
    ApplicationClient.lifecycle oc ap cl sp a ch =
      .ok ⟨ch.txns.length,
        { ch with txns := ch.txns ++
            [⟨snd, a.app_id, oc, (resolve_params sp a ch).fee, 0, none, none, ap, cl⟩] }⟩ := by
  simp [ApplicationClient.lifecycle, hsg, hsnd]

open ApplicationClient in
/-- C5: on a deployed application with resolvable signer and sender, each of
update, delete, opt_in, close_out and clear_state submits exactly one
transaction whose on-completion intent is respectively UpdateApplication,
DeleteApplication, OptIn, CloseOut and ClearState, whose application id is
the client's `app_id`, and whose sender is the address resolved by
`get_sender`. -/
theorem lifecycle_on_completion_intents (compile : Compiler)
    (sp : Option SuggestedParams) (a : ApplicationClient) (ch : Chain)
    (sg : Signer) (snd : Addr)
    ( _hdep : 0 < a.app_id)
    (hsg : a.get_signer none = .ok sg)
    (hsnd : a.get_sender none none = .ok snd) :
    (∃ r t, a.update compile sp ch = .ok r ∧ r.chain.txns = ch.txns ++ [t] ∧
      t.apan = .updateApplication ∧ t.apid = a.app_id ∧ t.snd = snd) ∧
    (∃ r t, a.delete sp ch = .ok r ∧ r.chain.txns = ch.txns ++ [t] ∧
      t.apan = .deleteApplication ∧ t.apid = a.app_id ∧ t.snd = snd) ∧
    (∃ r t, a.opt_in sp ch = .ok r ∧ r.chain.txns = ch.txns ++ [t] ∧
      t.apan = .optIn ∧ t.apid = a.app_id ∧ t.snd = snd) ∧
    (∃ r t, a.close_out sp ch = .ok r ∧ r.chain.txns = ch.txns ++ [t] ∧
      t.apan = .closeOut ∧ t.apid = a.app_id ∧ t.snd = snd) ∧
    (∃ r t, a.clear_state sp ch = .ok r ∧ r.chain.txns = ch.txns ++ [t] ∧
      t.apan = .clearState ∧ t.apid = a.app_id ∧ t.snd = snd) :=
  ⟨⟨_, _, lifecycle_ok _ _ _ _ _ _ _ _ hsg hsnd, rfl, rfl, rfl, rfl⟩,
   ⟨_, _, lifecycle_ok _ _ _ _ _ _ _ _ hsg hsnd, rfl, rfl, rfl, rfl⟩,
   ⟨_, _, lifecycle_ok _ _ _ _ _ _ _ _ hsg hsnd, rfl, rfl, rfl, rfl⟩,
   ⟨_, _, lifecycle_ok _ _ _ _ _ _ _ _ hsg hsnd, rfl, rfl, rfl, rfl⟩,
   ⟨_, _, lifecycle_ok _ _ _ _ _ _ _ _ hsg hsnd, rfl, rfl, rfl, rfl⟩⟩

open ApplicationClient in
/-- C5, witness: the update conjunct at a concrete deployed client, signer
and transport state. -/
theorem lifecycle_on_completion_intents_witness :
    ∃ r t, sampleDeployed.update sampleCompiler none sampleChain = .ok r ∧
      r.chain.txns = sampleChain.txns ++ [t] ∧
      t.apan = .updateApplication ∧ t.apid = sampleDeployed.app_id ∧
      t.snd = Addr.acct 5 :=
  (lifecycle_on_completion_intents sampleCompiler none sampleDeployed sampleChain
    (Signer.account 5) (Addr.acct 5) (by decide) rfl rfl).1

open ApplicationClient in
/-- C4: on a client whose signer and sender resolve, `create` succeeds and
returns an application id greater than zero, the address equal to the
transport's deterministic `get_application_address` of that id, and an
updated invoking client whose own `app_id` and `app_addr` equal the returned
values; every other snapshot coexisting in the store, in particular one
derived via `prepare` before the create, is unchanged. -/
theorem create_allocates_and_updates_invoker (compile : Compiler)
    (ep : Nat) (sp : Option SuggestedParams) (st : Store) (ch : Chain)
    (i : Nat) (a : ApplicationClient) (sg : Signer) (snd : Addr)
    (hi : st[i]? = some a)
    (hsg : a.get_signer none = .ok sg)
    (hsnd : a.get_sender none none = .ok snd) :
    ∃ r, a.create compile ep sp ch = .ok r ∧
      0 < r.appId ∧
      r.appAddr = get_application_address r.appId ∧
      r.snapshot.app_id = r.appId ∧
      r.snapshot.app_addr = some r.appAddr ∧
      ∀ j, j ≠ i → ((createOp compile i ep sp st ch).1)[j]? = st[j]? := by
  have hc : a.create compile ep sp ch =
      .ok ⟨ch.lastAppId + 1, get_application_address (ch.lastAppId + 1),
        ch.txns.length,
        { a with
            app_id := ch.lastAppId + 1
            app_addr := some (get_application_address (ch.lastAppId + 1)) },
        { params := ch.params, lastAppId := ch.lastAppId + 1,
          txns := ch.txns ++
            [⟨snd, 0, .noOp, (resolve_params sp a ch).fee, ep,
              some (a.app.globalNumUints, a.app.globalNumByteSlices),
              some (a.app.localNumUints, a.app.localNumByteSlices),
              a.compile_approval compile, a.compile_clear compile⟩] }⟩ := by
    simp [ApplicationClient.create, hsg, hsnd]
  refine ⟨_, hc, Nat.succ_pos _, rfl, rfl, rfl, ?_⟩
  intro j hj
  simp only [createOp, hi, hc]
  exact List.getElem?_set_ne (fun h => hj h.symm)

open ApplicationClient in
/-- C4, witness: creating from a concrete one-element store: the returned id
is positive, the address is the application address of that id, the invoking
client is updated, and the (vacuously nonexistent) other entries are
untouched. -/
theorem create_allocates_and_updates_invoker_witness :
    ∃ r, sampleUndeployed.create sampleCompiler 0 none sampleChain = .ok r ∧
      0 < r.appId ∧
      r.appAddr = get_application_address r.appId ∧
      r.snapshot.app_id = r.appId ∧
      r.snapshot.app_addr = some r.appAddr ∧
      ∀ j, j ≠ 0 →
        ((createOp sampleCompiler 0 0 none [sampleUndeployed] sampleChain).1)[j]? =
          ([sampleUndeployed] : Store)[j]? :=
  create_allocates_and_updates_invoker sampleCompiler 0 none [sampleUndeployed]
    sampleChain 0 sampleUndeployed (Signer.account 5) (Addr.acct 5) rfl rfl rfl

open ApplicationClient in
/-- C8: whenever the external compiler meets its contract (non-empty output
whose first byte is the requested version), `compile_approval` and
`compile_clear` return non-empty bytecode whose first byte is the
application's declared target bytecode version. -/
theorem compiled_bytecode_version_byte (compile : Compiler)
    (a : ApplicationClient) (h : CompilerContract compile) :
    a.compile_approval compile ≠ [] ∧
    (a.compile_approval compile).head? = some a.app.version ∧
    a.compile_clear compile ≠ [] ∧
    (a.compile_clear compile).head? = some a.app.version :=
  ⟨(h a.app.approvalSrc a.app.version).1, (h a.app.approvalSrc a.app.version).2,
   (h a.app.clearSrc a.app.version).1, (h a.app.clearSrc a.app.version).2⟩

open ApplicationClient in
/-- C8, witness: the sample compiler meets the contract, and compiling the
sample application yields bytecode starting with its version byte. -/
theorem compiled_bytecode_version_byte_witness :
    sampleUndeployed.compile_approval sampleCompiler ≠ [] ∧
    (sampleUndeployed.compile_approval sampleCompiler).head? = some 6 ∧
    sampleUndeployed.compile_clear sampleCompiler ≠ [] ∧
    (sampleUndeployed.compile_clear sampleCompiler).head? = some 6 :=
  compiled_bytecode_version_byte sampleCompiler sampleUndeployed
    (fun src version => ⟨by simp [sampleCompiler], rfl⟩)

open ApplicationClient in
/-- C9: `create` with an explicit suggested-params argument and an
extra-pages argument submits a transaction carrying exactly the given extra
pages, the fee from the explicit parameters, and the application's declared
global and local schema counts; explicit parameters take precedence over the
snapshot's and over freshly fetched ones, and the snapshot's over freshly
fetched ones. -/
theorem create_params_pages_schema (compile : Compiler) (ep : Nat)
    (p : SuggestedParams) (a : ApplicationClient) (ch : Chain)
    (sg : Signer) (snd : Addr)
    ( _hep : ep ≠ 0)
    (hsg : a.get_signer none = .ok sg)
    (hsnd : a.get_sender none none = .ok snd) :
    (∃ r t, a.create compile ep (some p) ch = .ok r ∧
      r.chain.txns = ch.txns ++ [t] ∧
      t.apep = ep ∧ t.fee = p.fee ∧
      t.apgs = some (a.app.globalNumUints, a.app.globalNumByteSlices) ∧
      t.apls = some (a.app.localNumUints, a.app.localNumByteSlices)) ∧
    (∀ ch2, resolve_params (some p) a ch2 = p) ∧
    (∀ q ch2, a.suggested_params = some q → resolve_params none a ch2 = q) := by
  refine ⟨?_, fun ch2 => rfl, fun q ch2 hq => by simp [resolve_params, hq]⟩
  have hc : a.create compile ep (some p) ch =
      .ok ⟨ch.lastAppId + 1, get_application_address (ch.lastAppId + 1),
        ch.txns.length,
        { a with
            app_id := ch.lastAppId + 1
            app_addr := some (get_application_address (ch.lastAppId + 1)) },
        { params := ch.params, lastAppId := ch.lastAppId + 1,
          txns := ch.txns ++
            [⟨snd, 0, .noOp, p.fee, ep,
              some (a.app.globalNumUints, a.app.globalNumByteSlices),
              some (a.app.localNumUints, a.app.localNumByteSlices),
              a.compile_approval compile, a.compile_clear compile⟩] }⟩ := by
    simp [ApplicationClient.create, hsg, hsnd, resolve_params]
  exact ⟨_, _, hc, rfl, rfl, rfl, rfl, rfl⟩

open ApplicationClient in
/-- C9, witness: concrete create with two extra pages and an explicit fee of
one million: the submitted transaction carries both and the sample schema. -/
theorem create_params_pages_schema_witness :
    (∃ r t, sampleUndeployed.create sampleCompiler 2
        (some ⟨1000000, true⟩) sampleChain = .ok r ∧
      r.chain.txns = sampleChain.txns ++ [t] ∧
      t.apep = 2 ∧ t.fee = 1000000 ∧
      t.apgs = some (1, 1) ∧ t.apls = some (1, 1)) ∧
    resolve_params none sampleDeployed sampleChain = sampleChain.params :=
  ⟨(create_params_pages_schema sampleCompiler 2 ⟨1000000, true⟩ sampleUndeployed
      sampleChain (Signer.account 5) (Addr.acct 5) (by decide) rfl rfl).1,
   rfl⟩

open ApplicationClient in
/-- C6, counterexample: the snapshot obtained by constructing an undeployed
client and overriding only the application id via `prepare` (exactly the
scenario of test_app_prepare, lines 136-142) is reachable, yet has a
non-zero application id with no application address, refuting the claimed
invariant for reachable snapshots. -/
theorem app_id_override_breaks_invariant :
    Reachable ((ApplicationClient.construct 0 sampleApp none none 0 none).prepare
        (Overrides.mk none none (some 3) none)) ∧
    ¬(((ApplicationClient.construct 0 sampleApp none none 0 none).prepare
          (Overrides.mk none none (some 3) none)).app_id = 0 ↔
      ((ApplicationClient.construct 0 sampleApp none none 0 none).prepare
          (Overrides.mk none none (some 3) none)).app_addr = none) :=
  ⟨Reachable.prep (Overrides.mk none none (some 3) none)
      (ApplicationClient.construct 0 sampleApp none none 0 none)
      (Reachable.construct 0 sampleApp none none 0 none),
   fun h => absurd (h.mpr rfl) (by decide)⟩

open ApplicationClient in
/-- C6, amended: every snapshot reachable through construction, `create`,
and `prepare` without the application id override satisfies the invariant
that the application id is zero exactly when the application address is
absent; the id and address are only ever set together, by construction or by
a successful create.  (`prepare` with an application id override — the
spec's deliberate escape hatch — may break the invariant, as the
counterexample shows.) -/
theorem reachable_no_override_invariant (s : ApplicationClient)
    (h : ReachableNoIdOverride s) : s.app_id = 0 ↔ s.app_addr = none := by
  induction h with
  | construct c app sg sd i sp =>
    by_cases hi : i = 0 <;> simp [ApplicationClient.construct, hi]
  | prep o a ho _ ih =>
    simpa [ApplicationClient.prepare, ho] using ih
  | created compile ep sp a ch r _ hc _ =>
    cases hsg : a.get_signer none with
    | error e =>
      rw [ApplicationClient.create, hsg] at hc
      exact absurd hc (by simp)
    | ok sg =>
      cases hsnd : a.get_sender none none with
      | error e =>
        rw [ApplicationClient.create, hsg, hsnd] at hc
        exact absurd hc (by simp)
      | ok snd =>
        rw [ApplicationClient.create, hsg, hsnd] at hc
        simp only [Except.ok.injEq] at hc
        rw [← hc]
        simp

open ApplicationClient in
/-- C6, witness: a freshly constructed undeployed client satisfies the
invariant (id zero, address absent). -/
theorem reachable_no_override_invariant_witness :
    (ApplicationClient.construct 0 sampleApp none none 0 none).app_id = 0 ↔
      (ApplicationClient.construct 0 sampleApp none none 0 none).app_addr = none :=
  reachable_no_override_invariant
    (ApplicationClient.construct 0 sampleApp none none 0 none)
    (ReachableNoIdOverride.construct 0 sampleApp none none 0 none)

end Beaker
